import Mathlib

/-!
Shallow embedding of the autoposter backend (three server.js variants:
src/server.js, src/unnamed/part_000, src/unnamed/part_001).

The servers are Express HTTP handlers over two flat JSON files.  Stateful
code is modelled as explicit state passing: each handler is a pure function
from the persisted file state (and the request body / an oracle for the
identity-provider responses) to an HTTP response together with the new file
state.  JavaScript dynamic objects are modelled as typed Lean records with
Option fields; JavaScript truthiness checks that the source performs are
modelled explicitly at each place the source performs one.

The external JSON library (JSON.parse / JSON.stringify, which are not code
of this repository) is modelled at the level of parsed documents: a file is
either absent, present but empty, present but unparseable, or holds a
parsed document.  The filesystem calls (fs.existsSync, readFileSync,
writeFileSync) are likewise external and appear only through this file
state.
-/

namespace Autoposter

/-- State of one backing JSON file, as distinguished by the branches of
`loadJSON` in server.js lines 40-49: the file may be absent
(`fs.existsSync` false), exist with empty text, exist with text that makes
`JSON.parse` throw, or hold text that parses to a document `d`. -/
inductive FileState (α : Type) where
  | absent : FileState α
  | emptyText : FileState α
  | corrupt (txt : String) : FileState α
  | ok (d : α) : FileState α
deriving Repr, DecidableEq

/-- Embedding of `loadJSON` (server.js lines 40-49).  The JS function
returns the empty object on a missing file, empty text, or a parse error
(the error is caught, logged and swallowed), and the parsed content
otherwise; it never throws to the caller.  `empty` is the typed image of
the JS empty object for the document type at hand. -/
def loadJSON {α : Type} (empty : α) : FileState α → α
  | .absent => empty
  | .emptyText => empty
  | .corrupt _ => empty
  | .ok d => d

/-- Embedding of `saveJSON` (server.js lines 50-58).  A successful write
(`writeOk = true`) leaves the file holding exactly the serialized document;
a failed write is caught, logged and swallowed, leaving the previous file
state (callers proceed as if the save succeeded either way). -/
def saveJSON {α : Type} (writeOk : Bool) (fs : FileState α) (d : α) : FileState α :=
  if writeOk then .ok d else fs

/-- One stored account record (value of `accounts[igAccountId]`).  The
union of the field shapes written by the three server.js variants; fields a
given variant does not write are `none`.  Buckets are opaque client
strings. -/
structure AccountRec where
  accessToken : String
  username : Option String
  igUsername : Option String
  pageId : Option String
  pageName : Option String
  buckets : List String
deriving Repr, DecidableEq

/-- The accounts document: a JS object keyed by business-account id,
modelled as an association list in key insertion order. -/
abbrev Store : Type := List (String × AccountRec)

/-- Property read `accounts[k]` on the accounts object: first entry with
the key, `none` for a missing key (JS `undefined`). -/
def lookupStore : Store → String → Option AccountRec
  | [], _ => none
  | (k', v) :: rest, k => if k' = k then some v else lookupStore rest k

/-- Property write `accounts[k] = v` on the accounts object: replaces the
value in place when the key exists, appends otherwise (JS object key
order). -/
def objSet : Store → String → AccountRec → Store
  | [], k, v => [(k, v)]
  | (k', v') :: rest, k, v =>
      if k' = k then (k, v) :: rest else (k', v') :: objSet rest k v

/-- The schedule document `{ times: [...] }`; `times := none` models a
document without the field (in particular the empty object that `loadJSON`
returns on a missing file). -/
structure ScheduleDoc where
  times : Option (List String)
deriving Repr, DecidableEq

/-- Typed image of the JS empty object at the schedule document type. -/
def emptyScheduleDoc : ScheduleDoc := { times := none }

/-- HTTP responses the modelled handlers produce.  `confirmation` is the
rendered success page of the OAuth callback (part_001 interpolates the
resolved username and page name into it, the other variants do not);
`serverError` is the status-500 page rendering `err.response?.data ||
err.message` inside a pre block. -/
inductive HttpResponse where
  | badRequest (msg : String)
  | serverError (detail : String)
  | confirmation (info : Option (String × String))
  | okJson
deriving Repr, DecidableEq

/-- Handler of `GET /accounts` (server.js lines 166-173): maps each stored
entry to an `{accountId, username}` pair.  The raw record (token included)
is not part of the output type because the source projects only these two
fields. -/
structure AccountListing where
  accountId : String
  username : Option String
deriving Repr, DecidableEq

def getAccounts (file : FileState Store) : List AccountListing :=
  (loadJSON [] file).map fun kv => { accountId := kv.1, username := kv.2.username }

/-- Mask applied by `GET /debug/read-accounts` (part_000 lines 254-265) to
one record: `if (acc[k].accessToken) acc[k].accessToken =
"***len:" + length` — the replacement happens only when the stored token is
truthy, i.e. a nonempty string. -/
def maskRecord (a : AccountRec) : AccountRec :=
  if a.accessToken = "" then a
  else { a with accessToken := "***len:" ++ toString a.accessToken.length }

/-- Handler of `GET /debug/read-accounts` (part_000 lines 254-265): loads
the store and rewrites each entry by `maskRecord`. -/
def debugReadAccounts (file : FileState Store) : Store :=
  (loadJSON [] file).map fun kv => (kv.1, maskRecord kv.2)

/-- Request body of `POST /buckets`; `none` in a field models a JS
`undefined`/`null`/otherwise-falsy value there. -/
structure BucketsBody where
  accountId : Option String
  buckets : Option (List String)
deriving Repr, DecidableEq

/-- Handler of `POST /buckets` (server.js lines 177-184).  `req.body || {}`
is destructured; `accounts[accountId]` falsy (missing id or unknown key)
yields status 400 with no save; otherwise the record's buckets field is set
to `buckets || []` and the store is saved. -/
def postBuckets (writeOk : Bool) (file : FileState Store) (body : Option BucketsBody) :
    HttpResponse × FileState Store :=
  let accountId := match body with | none => none | some b => b.accountId
  let buckets := match body with | none => none | some b => b.buckets
  let accounts := loadJSON [] file
  match accountId with
  | none => (.badRequest "Account not found", file)
  | some k =>
    match lookupStore accounts k with
    | none => (.badRequest "Account not found", file)
    | some acc =>
      (.okJson, saveJSON writeOk file (objSet accounts k { acc with buckets := buckets.getD [] }))

/-- Request body of `POST /schedule`; the handler reads `req.body &&
req.body.schedule`. -/
structure ScheduleBody where
  schedule : Option (List String)
deriving Repr, DecidableEq

/-- Handler of `POST /schedule` (server.js lines 187-191): stores
`{ times: (req.body && req.body.schedule) || [] }`.  A present schedule
array is always truthy in JS (even when empty), so `none` alone falls back
to the empty list. -/
def postSchedule (writeOk : Bool) (file : FileState ScheduleDoc) (body : Option ScheduleBody) :
    HttpResponse × FileState ScheduleDoc :=
  let times := match body with
    | none => []
    | some b => match b.schedule with | none => [] | some l => l
  (.okJson, saveJSON writeOk file { times := some times })

/-- Handler of `GET /schedule` (server.js line 186): returns
`loadJSON(SCHEDULE_FILE).times || []`; an absent times field gives the
empty list, a present array (truthy) is returned as is. -/
def getSchedule (file : FileState ScheduleDoc) : List String :=
  match (loadJSON emptyScheduleDoc file).times with
  | none => []
  | some l => l

/-- JS truthiness of a possibly-undefined string: `undefined`/`null` and
the empty string are falsy, every other string is truthy. -/
def jsTruthyStr : Option String → Bool
  | none => false
  | some s => !(s == "")

/-- Element of the `/me/accounts` page list as read by part_000 path 1
(only `p.id` is consulted). -/
structure Page where
  id : String
deriving Repr, DecidableEq

/-- Element of the user-level `instagram_business_accounts{id,username}`
list (part_000 path 2; only `id` is consulted). -/
structure IgEntry where
  id : String
deriving Repr, DecidableEq

/-- Oracle for the identity-provider responses consumed by the part_000
OAuth callback, one field per distinct graph call.  Token-exchange errors
carry the provider error body rendered into the error page; resolution
calls have their errors caught and swallowed by the handler, so the error
payload is irrelevant there.  A `.ok` list response models
`resp.data?.data || []` (a response missing the list is the empty
list). -/
structure Provider000 where
  shortToken : Except String String
  longToken : Except String String
  meAccounts : Except String (List Page)
  pageIg : String → Except Unit (Option String)
  meIg : Except Unit (List IgEntry)
  meAccountsIg : Except Unit (List (Option String))

/-- First truthy candidate in a scan list: the per-element loops of
part_000 assign `igAccountId` and break only when the looked-up id is
truthy (`if (id) { igAccountId = id; break; }`), so falsy candidates are
skipped. -/
def firstTruthyId : List (Option String) → Option String
  | [] => none
  | r :: rest => if jsTruthyStr r then r else firstTruthyId rest

/-- Path 1 of the part_000 resolution (lines 124-142): enumerate
`/me/accounts`, and for each page query its `instagram_business_account`
field under the user token; per-page errors are caught and the scan
continues; an error on the page-list call itself is caught and the path
yields nothing. -/
def path1 (pv : Provider000) : Option String :=
  match pv.meAccounts with
  | .error _ => none
  | .ok pages =>
      firstTruthyId (pages.map fun p =>
        match pv.pageIg p.id with
        | .error _ => none
        | .ok oid => oid)

/-- Path 2 of the part_000 resolution (lines 144-156): query the
user-level `instagram_business_accounts` field; when the returned list is
nonempty assign its first element's id (with no truthiness check on the id
itself); errors are caught and the path yields nothing. -/
def path2 (pv : Provider000) : Option String :=
  match pv.meIg with
  | .error _ => none
  | .ok igList => igList.head?.map IgEntry.id

/-- Path 3 of the part_000 resolution (lines 158-173): query the
user-level `accounts{id,name,instagram_business_account}` field and take
the first entry whose nested linked-account id is truthy; errors are
caught and the path yields nothing. -/
def path3 (pv : Provider000) : Option String :=
  match pv.meAccountsIg with
  | .error _ => none
  | .ok accs => firstTruthyId accs

/-- The part_000 resolver (lines 121-173): run path 1; run path 2 only if
`igAccountId` is still falsy; run path 3 only if it is still falsy after
that.  Paths 1 and 3 assign only truthy ids; path 2 can assign a falsy id,
in which case path 3 still runs, exactly as in the source guards
`if (!igAccountId)`. -/
def resolveIg (pv : Provider000) : Option String :=
  let i1 := path1 pv
  let i2 := if jsTruthyStr i1 then i1 else path2 pv
  if jsTruthyStr i2 then i2 else path3 pv

/-- Error message thrown by part_000 (line 176) when every lookup path
fails. -/
def noLinkedMsg000 : String :=
  "No Instagram Business account found. On the consent screen, click \"Choose what you allow\" and select your Page and Instagram account; also ensure IG is linked to the Page."

/-- The part_000 OAuth callback handler (lines 88-207) as a function of
the provider oracle, the `code` query parameter, the accounts file state
and a write-success flag.  Any thrown error is caught by the outer handler
and rendered as a status-500 error page carrying the provider error body
or the message; the save step runs only after a truthy id was resolved. -/
def callback000 (pv : Provider000) (code : Option String) (file : FileState Store)
    (writeOk : Bool) : HttpResponse × FileState Store :=
  if jsTruthyStr code = false then (.badRequest "No code returned", file)
  else
    match pv.shortToken with
    | .error e => (.serverError e, file)
    | .ok _shortTok =>
      match pv.longToken with
      | .error e => (.serverError e, file)
      | .ok longTok =>
        match resolveIg pv with
        | none => (.serverError noLinkedMsg000, file)
        | some igId =>
          if igId = "" then (.serverError noLinkedMsg000, file)
          else
            let accounts := loadJSON [] file
            let r : AccountRec :=
              { accessToken := longTok
                username := some ("Instagram-" ++ igId)
                igUsername := none
                pageId := none
                pageName := none
                buckets := [] }
            (.confirmation none, saveJSON writeOk file (objSet accounts igId r))

/-- Element of the `/me/accounts?fields=id,name,access_token` page list of
the part_001 robust variant; a missing or falsy `access_token` is modelled
as the empty string (the loop skips such pages). -/
structure PageRec where
  id : String
  name : String
  accessToken : String
deriving Repr, DecidableEq

/-- Oracle for the identity-provider responses consumed by the part_001
robust OAuth callback.  `pageIg` is the per-page
`instagram_business_account` lookup made with that page's own access
token; `igUsername` is the username fetch for a resolved account id, made
with the matching page's token. -/
structure Provider001 where
  shortToken : Except String String
  longToken : Except String String
  meAccounts : Except Unit (List PageRec)
  pageIg : PageRec → Except Unit (Option String)
  igUsername : String → String → Except Unit (Option String)

/-- Page list the part_001 callback works on: `pagesRes.data?.data || []`,
with an error on the call caught and logged, leaving the empty list. -/
def pagesOf (pv : Provider001) : List PageRec :=
  match pv.meAccounts with
  | .error _ => []
  | .ok ps => ps

/-- The part_001 page scan (lines 322-339): skip pages whose access token
is falsy, look up each remaining page's linked account under the page's
own token, swallow per-page errors, and stop at the first truthy id,
remembering the page it was found on. -/
def findIgPage (pv : Provider001) : List PageRec → Option (String × PageRec)
  | [] => none
  | p :: rest =>
    if p.accessToken = "" then findIgPage pv rest
    else
      match pv.pageIg p with
      | .error _ => findIgPage pv rest
      | .ok none => findIgPage pv rest
      | .ok (some id) => if id = "" then findIgPage pv rest else some (id, p)

/-- The part_001 username fetch (lines 347-354): initialise the label to
`Instagram-<id>`, then overwrite it with the fetched username only when the
fetch succeeds and the returned username is truthy; any error is caught and
ignored. -/
def fetchUsername (pv : Provider001) (igId : String) (page : PageRec) : String :=
  let fallback := "Instagram-" ++ igId
  match pv.igUsername igId page.accessToken with
  | .error _ => fallback
  | .ok none => fallback
  | .ok (some u) => if u = "" then fallback else u

/-- Error message thrown by part_001 (line 318) when no pages are
available. -/
def noPagesMsg001 : String :=
  "No Facebook Pages found for this user (ensure you selected the Page on the consent screen)."

/-- Error message thrown by part_001 (line 342) when no page has a linked
account. -/
def noLinkedMsg001 : String :=
  "No Instagram Business account linked to any of the selected Pages. Make sure your IG is BUSINESS and linked to the Page you checked during consent (Page Settings -> Linked Accounts)."

/-- The part_001 robust OAuth callback handler (lines 272-385):
token exchanges, page fetch, page scan, non-fatal username fetch, then the
upsert of the account record (user token, page id and name, username
label, and an empty bucket list) and the rendered confirmation page
carrying the username and page name. -/
def callback001 (pv : Provider001) (code : Option String) (file : FileState Store)
    (writeOk : Bool) : HttpResponse × FileState Store :=
  if jsTruthyStr code = false then (.badRequest "No code returned", file)
  else
    match pv.shortToken with
    | .error e => (.serverError e, file)
    | .ok _shortTok =>
      match pv.longToken with
      | .error e => (.serverError e, file)
      | .ok userToken =>
        let pages := pagesOf pv
        if pages.isEmpty then (.serverError noPagesMsg001, file)
        else
          match findIgPage pv pages with
          | none => (.serverError noLinkedMsg001, file)
          | some (igId, page) =>
            let igUser := fetchUsername pv igId page
            let accounts := loadJSON [] file
            let r : AccountRec :=
              { accessToken := userToken
                username := none
                igUsername := some igUser
                pageId := some page.id
                pageName := some page.name
                buckets := [] }
            (.confirmation (some (igUser, page.name)),
             saveJSON writeOk file (objSet accounts igId r))

/-- Token-erased view of the accounts store, used to state that an output
does not depend on the stored access tokens: two stores differ only in
token values exactly when their erased views are equal. -/
def eraseTokens (s : Store) : Store :=
  s.map fun kv => (kv.1, { kv.2 with accessToken := "" })

theorem lookupStore_objSet_self (s : Store) (k : String) (v : AccountRec) :
    lookupStore (objSet s k v) k = some v := by
  induction s with
  | nil => simp [objSet, lookupStore]
  | cons head rest ih =>
      obtain ⟨k1, v1⟩ := head
      by_cases h : k1 = k <;> simp [objSet, lookupStore, h, ih]

theorem lookupStore_objSet_ne (s : Store) (k k2 : String) (v : AccountRec)
    (h : k2 ≠ k) : lookupStore (objSet s k v) k2 = lookupStore s k2 := by
  induction s with
  | nil => simp [objSet, lookupStore, Ne.symm h]
  | cons head rest ih =>
      obtain ⟨k1, v1⟩ := head
      by_cases hk : k1 = k
      · subst hk
        simp [objSet, lookupStore, Ne.symm h]
      · simp [objSet, lookupStore, hk, ih]

theorem lookupStore_map (g : AccountRec → AccountRec) (s : Store) (k : String) :
    lookupStore (s.map fun kv => (kv.1, g kv.2)) k = (lookupStore s k).map g := by
  induction s with
  | nil => simp [lookupStore]
  | cons head rest ih =>
      obtain ⟨k1, v1⟩ := head
      by_cases h : k1 = k <;> simp [lookupStore, h, ih]

/-- C4: for every backing file state, `loadJSON` returns the empty-shaped
default (the typed image of the JS empty object) when the file is absent,
empty, or unparseable, returns the parsed content of a well-formed file,
and, being a total function over the file states, never raises an error to
the caller. -/
theorem c4_loadJSON_default_total {α : Type} (empty : α) (txt : String) (d : α) :
    loadJSON empty (FileState.absent : FileState α) = empty ∧
    loadJSON empty (FileState.emptyText : FileState α) = empty ∧
    loadJSON empty (FileState.corrupt txt : FileState α) = empty ∧
    loadJSON empty (FileState.ok d) = d :=
  ⟨rfl, rfl, rfl, rfl⟩

/-- C5: for every document `d` and every prior file state, saving `d` and
loading it back yields a document equal to `d`, assuming the write
succeeds (`writeOk = true`). -/
theorem c5_save_load_roundtrip {α : Type} (fs : FileState α) (empty d : α) :
    loadJSON empty (saveJSON true fs d) = d :=
  rfl

/-- C6: a `POST /buckets` request whose accountId is not a key of the
stored accounts document is rejected with a 400 error response and the
accounts file is left exactly unchanged (no save occurs). -/
theorem c6_unknown_account_rejected (writeOk : Bool) (file : FileState Store)
    (k : String) (bs : Option (List String))
    (h : lookupStore (loadJSON [] file) k = none) :
    postBuckets writeOk file (some { accountId := some k, buckets := bs }) =
      (.badRequest "Account not found", file) := by
  simp [postBuckets, h]

/-- C6 witness: a concrete rejected update over an absent accounts
file. -/
theorem c6_unknown_account_rejected_witness :
    postBuckets true (FileState.absent : FileState Store)
        (some { accountId := some "x", buckets := none }) =
      (.badRequest "Account not found", FileState.absent) :=
  c6_unknown_account_rejected true FileState.absent "x" none rfl

/-- C7: a schedule update fully replaces the stored global time list:
posting `l1` and then `l2` (with the writes succeeding) makes a subsequent
`GET /schedule` return exactly `l2`, retaining nothing of `l1`. -/
theorem c7_schedule_replaced_wholesale (file : FileState ScheduleDoc)
    (l1 l2 : List String) :
    getSchedule
      (postSchedule true
        (postSchedule true file (some { schedule := some l1 })).2
        (some { schedule := some l2 })).2 = l2 :=
  rfl

/-- C10: a `POST /buckets` request for a stored accountId whose buckets
field is absent or otherwise falsy succeeds and replaces that account's
bucket list with the empty list; the updated record keeps every other
field, and every other key of the store maps to its previous record. -/
theorem c10_falsy_buckets_cleared (file : FileState Store) (k : String)
    (acc : AccountRec) (h : lookupStore (loadJSON [] file) k = some acc) :
    postBuckets true file (some { accountId := some k, buckets := none }) =
      (.okJson, .ok (objSet (loadJSON [] file) k { acc with buckets := [] })) ∧
    lookupStore (objSet (loadJSON [] file) k { acc with buckets := [] }) k =
      some { acc with buckets := [] } ∧
    ∀ k2, k2 ≠ k →
      lookupStore (objSet (loadJSON [] file) k { acc with buckets := [] }) k2 =
        lookupStore (loadJSON [] file) k2 := by
  refine ⟨?_, lookupStore_objSet_self _ _ _,
    fun k2 hk2 => lookupStore_objSet_ne _ _ _ _ hk2⟩
  simp [postBuckets, h, saveJSON]

/-- C10 witness: a concrete falsy-buckets update over a one-account
store. -/
theorem c10_falsy_buckets_cleared_witness :
    postBuckets true
        (FileState.ok [("a",
          { accessToken := "tok", username := some "u", igUsername := none,
            pageId := none, pageName := none, buckets := ["x"] })])
        (some { accountId := some "a", buckets := none }) =
      (.okJson, .ok (objSet
        (loadJSON [] (FileState.ok [("a",
          { accessToken := "tok", username := some "u", igUsername := none,
            pageId := none, pageName := none, buckets := ["x"] })]))
        "a"
        { accessToken := "tok", username := some "u", igUsername := none,
          pageId := none, pageName := none, buckets := [] })) :=
  (c10_falsy_buckets_cleared
    (FileState.ok [("a",
      { accessToken := "tok", username := some "u", igUsername := none,
        pageId := none, pageName := none, buckets := ["x"] })])
    "a"
    { accessToken := "tok", username := some "u", igUsername := none,
      pageId := none, pageName := none, buckets := ["x"] }
    rfl).1

/-- C1: whenever the first lookup strategy (page enumeration) and the
second (user-level instagram_business_accounts field) both fail to produce
a usable identifier but the third (accounts-with-nested-field path) yields
one, the resolver returns the third strategy's identifier; moreover the
strategies run in fixed priority order and the resolver stops at the first
one that succeeds (a truthy result of path 1 is returned directly, and a
truthy result of path 2 is returned whenever path 1 failed). -/
theorem c1_fallback_ordering (pv : Provider000) (igId : String)
    (h1 : jsTruthyStr (path1 pv) = false)
    (h2 : jsTruthyStr (path2 pv) = false)
    (h3 : path3 pv = some igId) :
    resolveIg pv = some igId ∧
    (∀ q : Provider000, jsTruthyStr (path1 q) = true → resolveIg q = path1 q) ∧
    (∀ q : Provider000, jsTruthyStr (path1 q) = false → jsTruthyStr (path2 q) = true →
      resolveIg q = path2 q) := by
  refine ⟨?_, fun q hq => ?_, fun q hq1 hq2 => ?_⟩
  · simp [resolveIg, h1, h2, h3]
  · simp [resolveIg, hq]
  · simp [resolveIg, hq1, hq2]

/-- C1 witness: a concrete provider whose page-list call errors and whose
user-level aggregate call errors, while the third path returns an
identifier. -/
theorem c1_fallback_ordering_witness :
    resolveIg
      { shortToken := .ok "s", longToken := .ok "l", meAccounts := .error "denied",
        pageIg := fun _ => .error (), meIg := .error (),
        meAccountsIg := .ok [some "ig3"] } = some "ig3" :=
  (c1_fallback_ordering
    { shortToken := .ok "s", longToken := .ok "l", meAccounts := .error "denied",
      pageIg := fun _ => .error (), meIg := .error (),
      meAccountsIg := .ok [some "ig3"] }
    "ig3" rfl rfl rfl).1

/-- C2: a part_000 callback run that gets through both token exchanges but
whose three lookup strategies all fail to produce a truthy identifier
responds with the single fixed "no linked account" error rendered as the
status-500 error page, and the accounts file after the request is exactly
the file before it (no write occurs). -/
theorem c2_all_strategies_fail_no_write (pv : Provider000) (code : Option String)
    (file : FileState Store) (writeOk : Bool) (st lt : String)
    (hc : jsTruthyStr code = true)
    (hs : pv.shortToken = .ok st) (hl : pv.longToken = .ok lt)
    (hr : jsTruthyStr (resolveIg pv) = false) :
    callback000 pv code file writeOk = (.serverError noLinkedMsg000, file) := by
  cases h : resolveIg pv with
  | none => simp [callback000, hc, hs, hl, h]
  | some s =>
      rw [h] at hr
      simp only [jsTruthyStr, Bool.not_eq_false', beq_iff_eq] at hr
      simp [callback000, hc, hs, hl, h, hr]

/-- C2 witness: a concrete all-strategies-failing provider over a concrete
nonempty accounts file, left unchanged. -/
theorem c2_all_strategies_fail_no_write_witness :
    callback000
      { shortToken := .ok "s", longToken := .ok "l", meAccounts := .error "denied",
        pageIg := fun _ => .error (), meIg := .ok [], meAccountsIg := .ok [] }
      (some "code")
      (FileState.ok [("a",
        { accessToken := "tok", username := some "u", igUsername := none,
          pageId := none, pageName := none, buckets := ["x"] })])
      true =
    (.serverError noLinkedMsg000,
     FileState.ok [("a",
       { accessToken := "tok", username := some "u", igUsername := none,
         pageId := none, pageName := none, buckets := ["x"] })]) :=
  c2_all_strategies_fail_no_write
    { shortToken := .ok "s", longToken := .ok "l", meAccounts := .error "denied",
      pageIg := fun _ => .error (), meIg := .ok [], meAccountsIg := .ok [] }
    (some "code")
    (FileState.ok [("a",
      { accessToken := "tok", username := some "u", igUsername := none,
        pageId := none, pageName := none, buckets := ["x"] })])
    true "s" "l" rfl rfl rfl rfl

/-- C9: in a part_001 callback run that has resolved a business-account
identifier, a failing display-name fetch is non-fatal: the flow still
renders the confirmation page and saves the account record, with the
synthesized placeholder label `Instagram-<id>` in place of the fetched
username. -/
theorem c9_username_failure_nonfatal (pv : Provider001) (code : Option String)
    (file : FileState Store) (st ut igId : String) (page : PageRec)
    (hc : jsTruthyStr code = true)
    (hs : pv.shortToken = .ok st) (hl : pv.longToken = .ok ut)
    (hf : findIgPage pv (pagesOf pv) = some (igId, page))
    (hu : pv.igUsername igId page.accessToken = .error ()) :
    callback001 pv code file true =
      (.confirmation (some ("Instagram-" ++ igId, page.name)),
       .ok (objSet (loadJSON [] file) igId
         { accessToken := ut, username := none,
           igUsername := some ("Instagram-" ++ igId),
           pageId := some page.id, pageName := some page.name, buckets := [] })) := by
  have hne : (pagesOf pv).isEmpty = false := by
    cases hp : pagesOf pv with
    | nil => rw [hp] at hf; simp [findIgPage] at hf
    | cons a l => rfl
  simp [callback001, hc, hs, hl, hne, hf, fetchUsername, hu, saveJSON]

/-- C9 provider used by the witness: resolution succeeds on one page, the
username fetch errors. -/
def c9pv : Provider001 :=
  { shortToken := .ok "s", longToken := .ok "LT",
    meAccounts := .ok [{ id := "p1", name := "PageOne", accessToken := "ptok" }],
    pageIg := fun _ => .ok (some "ig9"),
    igUsername := fun _ _ => .error () }

/-- C9 witness: a concrete run with a failing username fetch still saves
the record under the placeholder label. -/
theorem c9_username_failure_nonfatal_witness :
    callback001 c9pv (some "code") FileState.absent true =
      (.confirmation (some ("Instagram-" ++ "ig9", "PageOne")),
       .ok (objSet (loadJSON [] (FileState.absent : FileState Store)) "ig9"
         { accessToken := "LT", username := none,
           igUsername := some ("Instagram-" ++ "ig9"),
           pageId := some "p1", pageName := some "PageOne", buckets := [] })) :=
  c9_username_failure_nonfatal c9pv (some "code") FileState.absent "s" "LT" "ig9"
    { id := "p1", name := "PageOne", accessToken := "ptok" } rfl rfl rfl rfl rfl

/-- C3 provider used by the counterexample and the amended witness: a
successful run resolving account ig1 on page p1. -/
def c3pv : Provider001 :=
  { shortToken := .ok "short", longToken := .ok "newTok",
    meAccounts := .ok [{ id := "p1", name := "PageOne", accessToken := "ptok" }],
    pageIg := fun _ => .ok (some "ig1"),
    igUsername := fun _ _ => .ok (some "alice") }

/-- C3 prior store: account ig1 already present with a nonempty bucket
list. -/
def c3prior : Store :=
  [("ig1",
    { accessToken := "oldTok", username := none, igUsername := some "alice",
      pageId := some "p1", pageName := some "PageOne", buckets := ["promo"] })]

/-- C3 counterexample: a successful part_001 callback whose resolved id
already has a stored record with bucket list ["promo"] leaves the stored
bucket list empty afterwards — the previously stored bucket list is not
preserved. -/
theorem c3_buckets_not_preserved_counterexample :
    (lookupStore (loadJSON []
        (callback001 c3pv (some "code") (FileState.ok c3prior) true).2) "ig1").map
      AccountRec.buckets = some [] ∧
    (lookupStore (loadJSON [] (FileState.ok c3prior)) "ig1").map
      AccountRec.buckets = some ["promo"] ∧
    some ([] : List String) ≠ some ["promo"] := by
  refine ⟨rfl, rfl, by decide⟩

/-- C3 (amended): the upsert of a successful part_001 callback writes the
new token, username label and page fields, but does not preserve a
previously stored bucket list: the whole record under the resolved id is
replaced and its buckets field is unconditionally reset to the empty
list, while every other key of the store keeps its previous record. -/
theorem c3_record_overwritten_amended (pv : Provider001) (code : Option String)
    (file : FileState Store) (st ut igId : String) (page : PageRec)
    (hc : jsTruthyStr code = true)
    (hs : pv.shortToken = .ok st) (hl : pv.longToken = .ok ut)
    (hf : findIgPage pv (pagesOf pv) = some (igId, page)) :
    loadJSON [] (callback001 pv code file true).2 =
      objSet (loadJSON [] file) igId
        { accessToken := ut, username := none,
          igUsername := some (fetchUsername pv igId page),
          pageId := some page.id, pageName := some page.name, buckets := [] } ∧
    (lookupStore (loadJSON [] (callback001 pv code file true).2) igId).map
      AccountRec.buckets = some [] ∧
    ∀ k2, k2 ≠ igId →
      lookupStore (loadJSON [] (callback001 pv code file true).2) k2 =
        lookupStore (loadJSON [] file) k2 := by
  have hne : (pagesOf pv).isEmpty = false := by
    cases hp : pagesOf pv with
    | nil => rw [hp] at hf; simp [findIgPage] at hf
    | cons a l => rfl
  have hmain : loadJSON [] (callback001 pv code file true).2 =
      objSet (loadJSON [] file) igId
        { accessToken := ut, username := none,
          igUsername := some (fetchUsername pv igId page),
          pageId := some page.id, pageName := some page.name, buckets := [] } := by
    simp [callback001, hc, hs, hl, hne, hf, saveJSON, loadJSON]
  refine ⟨hmain, ?_, fun k2 hk2 => ?_⟩
  · rw [hmain, lookupStore_objSet_self]
    rfl
  · rw [hmain, lookupStore_objSet_ne _ _ _ _ hk2]

/-- C3 amended witness: the concrete run of the counterexample scenario,
through the amended theorem. -/
theorem c3_record_overwritten_amended_witness :
    (lookupStore (loadJSON []
        (callback001 c3pv (some "code") (FileState.ok c3prior) true).2) "ig1").map
      AccountRec.buckets = some [] :=
  (c3_record_overwritten_amended c3pv (some "code") (FileState.ok c3prior)
    "short" "newTok" "ig1"
    { id := "p1", name := "PageOne", accessToken := "ptok" } rfl rfl rfl rfl).2.1

/-- C8 (amended): the account listing output is identical for any two
stores differing only in token values (it never exposes the raw access
token), and the debug read-accounts output replaces each nonempty stored
access token with the masked length indicator ***len:N where N is the
token length; an empty stored access token is left as the empty string
rather than being replaced by the indicator. -/
theorem c8_token_masking_amended :
    (∀ s1 s2 : Store, eraseTokens s1 = eraseTokens s2 →
        getAccounts (.ok s1) = getAccounts (.ok s2)) ∧
    (∀ (s : Store) (k : String) (a : AccountRec),
        lookupStore s k = some a → a.accessToken ≠ "" →
        (lookupStore (debugReadAccounts (.ok s)) k).map AccountRec.accessToken =
          some ("***len:" ++ toString a.accessToken.length)) ∧
    (∀ (s : Store) (k : String) (a : AccountRec),
        lookupStore s k = some a → a.accessToken = "" →
        (lookupStore (debugReadAccounts (.ok s)) k).map AccountRec.accessToken =
          some "") := by
  have key : ∀ s : Store, getAccounts (.ok s) =
      (eraseTokens s).map fun kv =>
        ({ accountId := kv.1, username := kv.2.username } : AccountListing) := by
    intro s
    simp [getAccounts, eraseTokens, List.map_map, loadJSON, Function.comp]
  have hd : ∀ (s : Store) (k : String),
      lookupStore (debugReadAccounts (.ok s)) k = (lookupStore s k).map maskRecord :=
    fun s k => lookupStore_map maskRecord s k
  refine ⟨fun s1 s2 h => ?_, fun s k a hk ha => ?_, fun s k a hk ha => ?_⟩
  · rw [key s1, key s2, h]
  · rw [hd, hk]
    simp [maskRecord, ha]
  · rw [hd, hk]
    simp [maskRecord, ha]

/-- C8 counterexample: with a stored empty-string access token the debug
read-accounts output contains that raw token unchanged, not the masked
indicator ***len:0 the claim requires for every stored token. -/
theorem c8_token_masking_counterexample :
    (lookupStore (debugReadAccounts (.ok
        [("a", { accessToken := "", username := some "u", igUsername := none,
                 pageId := none, pageName := none, buckets := [] })])) "a").map
      AccountRec.accessToken = some "" ∧
    some "" ≠ some ("***len:" ++ toString (String.length "")) := by
  refine ⟨rfl, by decide⟩

/-- C8 stores used by the amended witness, differing only in the token
value. -/
def c8s1 : Store :=
  [("a", { accessToken := "tok", username := some "u", igUsername := none,
           pageId := none, pageName := none, buckets := [] })]

def c8s2 : Store :=
  [("a", { accessToken := "other", username := some "u", igUsername := none,
           pageId := none, pageName := none, buckets := [] })]

/-- C8 amended witness: concrete listing equality across a token change,
and the concrete masked debug output for a nonempty token. -/
theorem c8_token_masking_amended_witness :
    getAccounts (.ok c8s1) = getAccounts (.ok c8s2) ∧
    (lookupStore (debugReadAccounts (.ok c8s1)) "a").map AccountRec.accessToken =
      some ("***len:" ++ toString (String.length "tok")) :=
  ⟨c8_token_masking_amended.1 c8s1 c8s2 (by decide),
   c8_token_masking_amended.2.1 c8s1 "a"
     { accessToken := "tok", username := some "u", igUsername := none,
       pageId := none, pageName := none, buckets := [] }
     (by decide) (by decide)⟩

end Autoposter
